import Mathlib

/-!
Shallow embedding of `src/ophyd_async/core/_providers.py`: the
filename/path provider policies (Static, UUID, AutoIncrement filename
providers; Static, AutoIncrementing, YMD path providers) and theorems
about their behaviour.

Python unbounded integers are modelled as `Int` (counters, increments)
or `Nat` (digit widths, tallies, calendar fields, which are non-negative
in every reachable configuration).  Python strings are `String`.
Stateful objects are modelled as structures; a mutating method becomes a
function returning the updated structure, and a method that can `raise`
returns an `Except String` result paired with the state as it is at the
moment of the raise (Python leaves the object fields that were already
assigned; all raises in this file happen before any field assignment of
the object itself).
-/

set_option maxRecDepth 8000

deriving instance DecidableEq for Except

/-- Decimal digit characters of `n`, most significant first, prepended to
`acc`; fuel-based structural recursion mirroring `Nat.toDigitsCore`.
`fuel = n + 1` always suffices since the digit count of `n` is at most
`n + 1`. -/
def natDecCharsAux : Nat → Nat → List Char → List Char
  | 0, _, acc => acc
  | fuel + 1, n, acc =>
    if n < 10 then Nat.digitChar n :: acc
    else natDecCharsAux fuel (n / 10) (Nat.digitChar (n % 10) :: acc)

/-- Model of Python `str` on a non-negative integer: its decimal digits. -/
def pyStrNat (n : Nat) : String := String.mk (natDecCharsAux (n + 1) n [])

/-- Model of Python `str` on an arbitrary integer: decimal digits with a
leading minus sign for negative values (`str(-3) = "-3"`). -/
def pyStrInt : Int → String
  | Int.ofNat n => pyStrNat n
  | Int.negSucc n => "-" ++ pyStrNat (n + 1)

/-- Model of Python `str.rjust(width, fill)`: if the string is at least
`width` long it is returned unchanged, otherwise it is left-padded with
`fill` up to `width`. -/
def pyRjust (s : String) (width : Nat) (fill : Char) : String :=
  if width ≤ s.length then s
  else String.mk (List.replicate (width - s.length) fill) ++ s

example : pyStrNat 0 = "0" := by decide
example : pyStrNat 1000 = "1000" := by decide
example : pyStrInt (-23) = "-23" := by decide
example : pyRjust "7" 5 '0' = "00007" := by decide
example : pyRjust "123456" 5 '0' = "123456" := by decide

/-- `PathInfo` dataclass: where and how to write a file. -/
structure PathInfo where
  root : String
  resource_dir : String
  filename : String
  create_dir_depth : Int
deriving DecidableEq

/-- `StaticFilenameProvider`: holds the configured filename. -/
structure StaticFilenameProvider where
  static_filename : String
deriving DecidableEq

/-- `StaticFilenameProvider.__call__`: always returns the configured
filename; cannot fail and never mutates the provider. -/
def StaticFilenameProvider.call (p : StaticFilenameProvider) :
    Except String String × StaticFilenameProvider :=
  (Except.ok p.static_filename, p)

/-- `AutoIncrementFilenameProvider` state: the constructor arguments plus
the mutable counter `_current_value` (initialised to `starting_value`). -/
structure AutoIncrementFilenameProvider where
  base_filename : String
  max_digits : Nat
  current_value : Int
  increment : Int
  inc_delimeter : String
deriving DecidableEq

/-- `AutoIncrementFilenameProvider.__init__`. -/
def AutoIncrementFilenameProvider.init (base_filename : String) (max_digits : Nat)
    (starting_value : Int) (increment : Int) (inc_delimeter : String) :
    AutoIncrementFilenameProvider :=
  { base_filename := base_filename, max_digits := max_digits,
    current_value := starting_value, increment := increment,
    inc_delimeter := inc_delimeter }

/-- The `ValueError` message raised on counter overflow (modelled without
the Python source's line-continuation whitespace). -/
def counterOverflowMsg (max_digits : Nat) : String :=
  "Auto incrementing filename counter exceeded maximum of " ++
    pyStrNat max_digits ++ " digits!"

/-- `AutoIncrementFilenameProvider.__call__`: raise if the decimal
representation of `_current_value` already exceeds `_max_digits` digits
(checked before padding, before any mutation); otherwise build
`base_filename + delimiter + zero-padded counter` and then advance the
counter by `_increment`. -/
def AutoIncrementFilenameProvider.call (p : AutoIncrementFilenameProvider) :
    Except String String × AutoIncrementFilenameProvider :=
  if p.max_digits < (pyStrInt p.current_value).length then
    (Except.error (counterOverflowMsg p.max_digits), p)
  else
    let padded_counter := pyRjust (pyStrInt p.current_value) p.max_digits '0'
    let filename := p.base_filename ++ p.inc_delimeter ++ padded_counter
    (Except.ok filename, { p with current_value := p.current_value + p.increment })

/-- State of an `AutoIncrementFilenameProvider` after `k` successive calls
(each call feeds the provider returned by the previous one). -/
def AutoIncrementFilenameProvider.iterate (p : AutoIncrementFilenameProvider) :
    Nat → AutoIncrementFilenameProvider
  | 0 => p
  | k + 1 => (AutoIncrementFilenameProvider.call (p.iterate k)).2

lemma natDecCharsAux_fuel_irrel :
    ∀ f g n acc, 0 < f → 0 < g → n < 10 ^ f → n < 10 ^ g →
      natDecCharsAux f n acc = natDecCharsAux g n acc := by
  intro f
  induction f with
  | zero => intro g n acc hf _ _ _; exact absurd hf (by omega)
  | succ f ih =>
    intro g n acc _ hg hnf hng
    obtain ⟨g, rfl⟩ : ∃ g', g = g' + 1 := ⟨g - 1, by omega⟩
    by_cases h10 : n < 10
    · simp [natDecCharsAux, h10]
    · have hf' : 0 < f := by
        rcases Nat.eq_zero_or_pos f with h | h
        · subst h; norm_num at hnf; omega
        · exact h
      have hg' : 0 < g := by
        rcases Nat.eq_zero_or_pos g with h | h
        · subst h; norm_num at hng; omega
        · exact h
      have hdf : n / 10 < 10 ^ f := by
        rw [Nat.div_lt_iff_lt_mul (by norm_num)]
        calc n < 10 ^ (f + 1) := hnf
        _ = 10 ^ f * 10 := by rw [pow_succ]
      have hdg : n / 10 < 10 ^ g := by
        rw [Nat.div_lt_iff_lt_mul (by norm_num)]
        calc n < 10 ^ (g + 1) := hng
        _ = 10 ^ g * 10 := by rw [pow_succ]
      simp only [natDecCharsAux, if_neg h10]
      exact ih g (n / 10) (Nat.digitChar (n % 10) :: acc) hf' hg' hdf hdg

lemma natDecCharsAux_length :
    ∀ f n acc, n < 10 ^ f → (natDecCharsAux f n acc).length ≤ f + acc.length := by
  intro f
  induction f with
  | zero => intro n acc _; simp [natDecCharsAux]
  | succ f ih =>
    intro n acc h
    by_cases h10 : n < 10
    · simp [natDecCharsAux, h10]; omega
    · have hd : n / 10 < 10 ^ f := by
        rw [Nat.div_lt_iff_lt_mul (by norm_num)]
        calc n < 10 ^ (f + 1) := h
        _ = 10 ^ f * 10 := by rw [pow_succ]
      simp only [natDecCharsAux, if_neg h10]
      have h2 := ih (n / 10) (Nat.digitChar (n % 10) :: acc) hd
      simp at h2
      omega

lemma lt_ten_pow_succ_self (n : Nat) : n < 10 ^ (n + 1) := by
  calc n < 2 ^ n := Nat.lt_two_pow n
  _ ≤ 10 ^ n := Nat.pow_le_pow_left (by norm_num) n
  _ < 10 ^ (n + 1) := by
      rw [pow_succ]
      have hp : 0 < 10 ^ n := pow_pos (by norm_num) n
      omega

lemma pyStrNat_eq_of_lt (n k : Nat) (hk : 0 < k) (h : n < 10 ^ k) :
    pyStrNat n = String.mk (natDecCharsAux k n []) := by
  unfold pyStrNat
  congr 1
  exact natDecCharsAux_fuel_irrel (n + 1) k n [] (Nat.succ_pos n) hk
    (lt_ten_pow_succ_self n) h

lemma pyStrNat_length_le (n k : Nat) (hk : 0 < k) (h : n < 10 ^ k) :
    (pyStrNat n).length ≤ k := by
  rw [pyStrNat_eq_of_lt n k hk h]
  have h2 := natDecCharsAux_length k n [] h
  simpa [String.length] using h2

lemma pyStrInt_natCast (k : Nat) : pyStrInt (k : Int) = pyStrNat k := rfl

/-- A successful `AutoIncrementFilenameProvider.__call__`: when the current
value fits in `max_digits` digits, it returns the composed filename and the
state with the counter advanced by `increment`. -/
lemma AutoIncrementFilenameProvider.call_ok (p : AutoIncrementFilenameProvider)
    (h : (pyStrInt p.current_value).length ≤ p.max_digits) :
    p.call = (Except.ok (p.base_filename ++ p.inc_delimeter ++
        pyRjust (pyStrInt p.current_value) p.max_digits '0'),
      { p with current_value := p.current_value + p.increment }) := by
  unfold AutoIncrementFilenameProvider.call
  rw [if_neg (by omega)]

/-- A failing `AutoIncrementFilenameProvider.__call__`: when the current
value already needs more than `max_digits` digits, it raises and leaves the
state untouched. -/
lemma AutoIncrementFilenameProvider.call_overflow (p : AutoIncrementFilenameProvider)
    (h : p.max_digits < (pyStrInt p.current_value).length) :
    p.call = (Except.error (counterOverflowMsg p.max_digits), p) := by
  unfold AutoIncrementFilenameProvider.call
  rw [if_pos h]

lemma aifpX3_iterate (k : Nat) (hk : k ≤ 1000) :
    (AutoIncrementFilenameProvider.init "x" 3 0 1 "_").iterate k =
      { base_filename := "x", max_digits := 3, current_value := (k : Int),
        increment := 1, inc_delimeter := "_" } := by
  induction k with
  | zero => rfl
  | succ k ih =>
    rw [AutoIncrementFilenameProvider.iterate, ih (by omega),
      AutoIncrementFilenameProvider.call_ok]
    · show AutoIncrementFilenameProvider.mk "x" 3 ((k : Int) + 1) 1 "_" = _
      rw [show (((k + 1 : Nat)) : Int) = (k : Int) + 1 from by push_cast; ring]
    · show (pyStrInt (k : Int)).length ≤ 3
      rw [pyStrInt_natCast]
      exact pyStrNat_length_le k 3 (by norm_num) (by norm_num; omega)

example :
    (AutoIncrementFilenameProvider.call
      (AutoIncrementFilenameProvider.init "x" 3 0 1 "_")).1 = Except.ok "x_000" := by
  decide

example :
    (AutoIncrementFilenameProvider.call
      (AutoIncrementFilenameProvider.init "x" 3 1000 1 "_")).1 =
      Except.error (counterOverflowMsg 3) := by
  decide

/-- C2: for `AutoIncrementFilenameProvider(base_filename="x", max_digits=3,
starting_value=0, increment=1)`, the k-th call (k = 0, …, 999) returns
exactly `x_` followed by the 3-digit zero-padded decimal of k (so
`x_000, x_001, …, x_999`), and the call whose pre-render counter value is
1000 fails with the counter-overflow `ValueError` — detected before
padding, with no wrap or truncation. -/
theorem autoIncrementFilename_x3_sequence :
    (∀ k : Nat, k < 1000 →
      (AutoIncrementFilenameProvider.call
          ((AutoIncrementFilenameProvider.init "x" 3 0 1 "_").iterate k)).1 =
        Except.ok ("x_" ++ pyRjust (pyStrNat k) 3 '0'))
    ∧ (AutoIncrementFilenameProvider.call
          ((AutoIncrementFilenameProvider.init "x" 3 0 1 "_").iterate 1000)).1 =
        Except.error (counterOverflowMsg 3) := by
  constructor
  · intro k hk
    rw [aifpX3_iterate k (by omega), AutoIncrementFilenameProvider.call_ok]
    · show Except.ok (("x" ++ "_") ++ pyRjust (pyStrInt (k : Int)) 3 '0') = _
      rw [pyStrInt_natCast, show ("x" : String) ++ "_" = "x_" from rfl]
    · show (pyStrInt (k : Int)).length ≤ 3
      rw [pyStrInt_natCast]
      exact pyStrNat_length_le k 3 (by norm_num) (by norm_num; omega)
  · rw [aifpX3_iterate 1000 (by omega), AutoIncrementFilenameProvider.call_overflow]
    decide

/-- Witness for C2 at k = 7. -/
theorem autoIncrementFilename_x3_sequence_witness :
    (AutoIncrementFilenameProvider.call
        ((AutoIncrementFilenameProvider.init "x" 3 0 1 "_").iterate 7)).1 =
      Except.ok "x_007" := by
  have h := autoIncrementFilename_x3_sequence.1 7 (by norm_num)
  rw [h]
  decide

/-- The identifier-generating callable held by a `UUIDFilenameProvider`:
one of the four `uuid` module generators, or any other callable (modelled
by an opaque index).  Only `uuid3` and `uuid5` are the name-based
variants the code compares against. -/
inductive UuidCallFunc where
  | uuid1 : UuidCallFunc
  | uuid3 : UuidCallFunc
  | uuid4 : UuidCallFunc
  | uuid5 : UuidCallFunc
  | custom : Nat → UuidCallFunc
deriving DecidableEq

/-- Model of `self._uuid_call_func in [uuid.uuid3, uuid.uuid5]`. -/
def UuidCallFunc.isNameBased (f : UuidCallFunc) : Bool :=
  f = UuidCallFunc.uuid3 ∨ f = UuidCallFunc.uuid5

/-- `UUIDFilenameProvider` state: the configured callable plus the
namespace/name pair, both `None` until `specify_uuid_namespace` is
called. -/
structure UUIDFilenameProvider where
  uuid_call_func : UuidCallFunc
  uuid_namespace : Option String
  uuid_name : Option String
deriving DecidableEq

/-- `UUIDFilenameProvider.__init__`: namespace and name start as `None`. -/
def UUIDFilenameProvider.init (uuid_call_func : UuidCallFunc) : UUIDFilenameProvider :=
  { uuid_call_func := uuid_call_func, uuid_namespace := none, uuid_name := none }

/-- `UUIDFilenameProvider.specify_uuid_namespace`: store the namespace and
name used by the name-based generators. -/
def UUIDFilenameProvider.specify_uuid_namespace (p : UUIDFilenameProvider)
    (ns nm : String) : UUIDFilenameProvider :=
  { p with uuid_namespace := some ns, uuid_name := some nm }

/-- The `ValueError` message raised when a name-based generator is used
without namespace and name (the Python message interpolates the repr of
the function, whose memory address is elided here). -/
def uuidConfigErrMsg : String :=
  "To use a name-based function to generate UUID filenames," ++
    " UUID namespace and name must be set!"

/-- `UUIDFilenameProvider.__call__`.  The two name-based generators
(`uuid3`/`uuid5`) are deterministic functions of namespace and name,
modelled by the pure parameter `nameGen`; every other callable takes no
arguments, modelled by `noArgGen`.  Raises when a name-based generator is
configured and namespace or name is still `None`.  The provider itself is
never mutated by a call. -/
def UUIDFilenameProvider.call (nameGen : UuidCallFunc → String → String → String)
    (noArgGen : UuidCallFunc → String) (p : UUIDFilenameProvider) :
    Except String String :=
  if p.uuid_call_func.isNameBased then
    match p.uuid_namespace, p.uuid_name with
    | some ns, some nm => Except.ok (nameGen p.uuid_call_func ns nm)
    | some _, none => Except.error uuidConfigErrMsg
    | none, _ => Except.error uuidConfigErrMsg
  else
    Except.ok (noArgGen p.uuid_call_func)

/-- C3: with a name-based generator (`uuid3`/`uuid5`) a call fails exactly
when namespace and name are not both set; after setting both via
`specify_uuid_namespace` every call succeeds and the result is a function
of the generator, namespace and name only (deterministic); with any other
generator the call succeeds with the zero-argument generator's output. -/
theorem uuidFilename_namespace_guard
    (nameGen : UuidCallFunc → String → String → String)
    (noArgGen : UuidCallFunc → String)
    (p q : UUIDFilenameProvider) (ns nm : String) :
    (p.uuid_call_func.isNameBased = true →
      ((∃ e, p.call nameGen noArgGen = Except.error e) ↔
        (p.uuid_namespace = none ∨ p.uuid_name = none)))
    ∧ (p.uuid_call_func.isNameBased = true →
      (p.specify_uuid_namespace ns nm).call nameGen noArgGen =
        Except.ok (nameGen p.uuid_call_func ns nm))
    ∧ (q.uuid_call_func = p.uuid_call_func →
      (q.specify_uuid_namespace ns nm).call nameGen noArgGen =
        (p.specify_uuid_namespace ns nm).call nameGen noArgGen)
    ∧ (p.uuid_call_func.isNameBased = false →
      p.call nameGen noArgGen = Except.ok (noArgGen p.uuid_call_func)) := by
  refine ⟨fun hnb => ?_, fun hnb => ?_, fun hq => ?_, fun hnb => ?_⟩
  · unfold UUIDFilenameProvider.call
    rw [hnb]
    cases hns : p.uuid_namespace with
    | none => simp
    | some a =>
      cases hnm : p.uuid_name with
      | none => simp
      | some b => simp
  · unfold UUIDFilenameProvider.call UUIDFilenameProvider.specify_uuid_namespace
    rw [show ({ p with uuid_namespace := some ns, uuid_name := some nm
        } : UUIDFilenameProvider).uuid_call_func = p.uuid_call_func from rfl, hnb]
    simp
  · unfold UUIDFilenameProvider.call UUIDFilenameProvider.specify_uuid_namespace
    rw [show ({ q with uuid_namespace := some ns, uuid_name := some nm
        } : UUIDFilenameProvider).uuid_call_func = q.uuid_call_func from rfl,
      show ({ p with uuid_namespace := some ns, uuid_name := some nm
        } : UUIDFilenameProvider).uuid_call_func = p.uuid_call_func from rfl, hq]
  · unfold UUIDFilenameProvider.call
    rw [hnb]
    simp

/-- Witness for C3 with the `uuid5` generator: a fresh provider fails, and
after `specify_uuid_namespace "NS" "file"` it succeeds with the generator
applied to that namespace and name; a fresh `uuid4` provider succeeds
without any namespace. -/
theorem uuidFilename_namespace_guard_witness :
    (∃ e, (UUIDFilenameProvider.init UuidCallFunc.uuid5).call
        (fun _ a b => a ++ ":" ++ b) (fun _ => "random") = Except.error e)
    ∧ ((UUIDFilenameProvider.init UuidCallFunc.uuid5).specify_uuid_namespace
        "NS" "file").call (fun _ a b => a ++ ":" ++ b) (fun _ => "random") =
        Except.ok "NS:file"
    ∧ (UUIDFilenameProvider.init UuidCallFunc.uuid4).call
        (fun _ a b => a ++ ":" ++ b) (fun _ => "random") = Except.ok "random" := by
  have h := uuidFilename_namespace_guard (fun _ a b => a ++ ":" ++ b)
    (fun _ => "random") (UUIDFilenameProvider.init UuidCallFunc.uuid5)
    (UUIDFilenameProvider.init UuidCallFunc.uuid5) "NS" "file"
  have h4 := uuidFilename_namespace_guard (fun _ a b => a ++ ":" ++ b)
    (fun _ => "random") (UUIDFilenameProvider.init UuidCallFunc.uuid4)
    (UUIDFilenameProvider.init UuidCallFunc.uuid4) "NS" "file"
  refine ⟨(h.1 (by decide)).mpr (by decide), ?_, h4.2.2.2 (by decide)⟩
  rw [h.2.1 (by decide)]
  decide

/-- Python `str.startswith("/")`: the first character is the posix path
separator. -/
def startsWithSep (s : String) : Bool := s.data.head? == some '/'

/-- Python `str.endswith("/")`: the last character is the posix path
separator. -/
def endsWithSep (s : String) : Bool := s.data.getLast? == some '/'

/-- One step of posix `os.path.join`: a component that starts with the
separator replaces the accumulated path; otherwise it is appended,
inserting "/" unless the accumulated path is empty or already ends with
"/". -/
def ospJoin2 (path b : String) : String :=
  if startsWithSep b then b
  else if path == "" || endsWithSep path then path ++ b
  else path ++ "/" ++ b

/-- posix `os.path.join(a, *ps)`. -/
def ospJoin (a : String) (ps : List String) : String := ps.foldl ospJoin2 a

lemma natDecCharsAux_mem :
    ∀ f n acc c, c ∈ natDecCharsAux f n acc →
      c ∈ acc ∨ ∃ m, m < 10 ∧ c = Nat.digitChar m := by
  intro f
  induction f with
  | zero => intro n acc c h; exact Or.inl h
  | succ f ih =>
    intro n acc c h
    by_cases h10 : n < 10
    · simp only [natDecCharsAux, if_pos h10, List.mem_cons] at h
      rcases h with h | h
      · exact Or.inr ⟨n, h10, h⟩
      · exact Or.inl h
    · simp only [natDecCharsAux, if_neg h10] at h
      rcases ih (n / 10) (Nat.digitChar (n % 10) :: acc) c h with h | h
      · rcases List.mem_cons.mp h with h | h
        · exact Or.inr ⟨n % 10, Nat.mod_lt n (by norm_num), h⟩
        · exact Or.inl h
      · exact Or.inr h

lemma natDecCharsAux_acc_ne_nil :
    ∀ f n acc, acc ≠ [] → natDecCharsAux f n acc ≠ [] := by
  intro f
  induction f with
  | zero => intro n acc h; simpa [natDecCharsAux] using h
  | succ f ih =>
    intro n acc h
    by_cases h10 : n < 10
    · simp [natDecCharsAux, h10]
    · simp only [natDecCharsAux, if_neg h10]
      exact ih (n / 10) _ (by simp)

lemma pyStrNat_data_ne_nil (n : Nat) : (pyStrNat n).data ≠ [] := by
  show natDecCharsAux (n + 1) n [] ≠ []
  by_cases h10 : n < 10
  · simp [natDecCharsAux, h10]
  · simp only [natDecCharsAux, if_neg h10]
    exact natDecCharsAux_acc_ne_nil n (n / 10) _ (by simp)

lemma digitChar_ne_sep (m : Nat) (h : m < 10) : Nat.digitChar m ≠ '/' := by
  interval_cases m <;> decide

lemma pyStrNat_no_sep (n : Nat) : ∀ c ∈ (pyStrNat n).data, c ≠ '/' := by
  intro c hc
  rcases natDecCharsAux_mem (n + 1) n [] c hc with h | ⟨m, hm, rfl⟩
  · simp at h
  · exact digitChar_ne_sep m hm

lemma ne_empty_of_data_ne_nil (s : String) (h : s.data ≠ []) : s ≠ "" :=
  fun he => h (by rw [he])

lemma data_ne_nil_of_ne_empty (s : String) (h : s ≠ "") : s.data ≠ [] := by
  intro hd
  exact h (by cases s with | mk l => cases hd; rfl)

lemma pyStrNat_ne_empty (n : Nat) : pyStrNat n ≠ "" :=
  ne_empty_of_data_ne_nil _ (pyStrNat_data_ne_nil n)

lemma startsWithSep_eq_false (s : String) (h : ∀ c ∈ s.data, c ≠ '/') :
    startsWithSep s = false := by
  unfold startsWithSep
  cases hd : s.data with
  | nil => rfl
  | cons a t =>
    have ha : a ≠ '/' := h a (by rw [hd]; exact List.mem_cons_self a t)
    simp [ha]

lemma endsWithSep_eq_false (s : String) (h : ∀ c ∈ s.data, c ≠ '/') :
    endsWithSep s = false := by
  unfold endsWithSep
  cases hd : s.data.getLast? with
  | none => rfl
  | some a =>
    have ha : a ≠ '/' := h a (List.mem_of_mem_getLast? hd)
    simp [ha]

lemma data_append_ne_nil (a b : String) (hb : b.data ≠ []) :
    (a ++ b).data ≠ [] := by
  rw [String.data_append]
  simp [hb]

lemma endsWithSep_append (a b : String) (hb : b.data ≠ []) :
    endsWithSep (a ++ b) = endsWithSep b := by
  unfold endsWithSep
  rw [String.data_append, List.getLast?_append_of_ne_nil a.data hb]

lemma ospJoin2_clean (a b : String) (ha : a.data ≠ []) (hae : endsWithSep a = false)
    (hbs : startsWithSep b = false) : ospJoin2 a b = a ++ "/" ++ b := by
  unfold ospJoin2
  rw [hbs, hae, beq_eq_false_iff_ne.mpr (ne_empty_of_data_ne_nil a ha)]
  simp

lemma ospJoin_three (a b c : String)
    (ha : a.data ≠ []) (hae : endsWithSep a = false)
    (hb : b.data ≠ []) (hbs : startsWithSep b = false) (hbe : endsWithSep b = false)
    (hcs : startsWithSep c = false) :
    ospJoin a [b, c] = a ++ "/" ++ b ++ "/" ++ c := by
  show ospJoin2 (ospJoin2 a b) c = _
  rw [ospJoin2_clean a b ha hae hbs,
    ospJoin2_clean _ c (data_append_ne_nil _ _ hb)
      (by rw [endsWithSep_append _ _ hb]; exact hbe) hcs]

lemma ospJoin_four (a b c d : String)
    (ha : a.data ≠ []) (hae : endsWithSep a = false)
    (hb : b.data ≠ []) (hbs : startsWithSep b = false) (hbe : endsWithSep b = false)
    (hc : c.data ≠ []) (hcs : startsWithSep c = false) (hce : endsWithSep c = false)
    (hds : startsWithSep d = false) :
    ospJoin a [b, c, d] = a ++ "/" ++ b ++ "/" ++ c ++ "/" ++ d := by
  show ospJoin2 (ospJoin2 (ospJoin2 a b) c) d = _
  rw [ospJoin2_clean a b ha hae hbs,
    ospJoin2_clean _ c (data_append_ne_nil _ _ hb)
      (by rw [endsWithSep_append _ _ hb]; exact hbe) hcs,
    ospJoin2_clean _ d (data_append_ne_nil _ _ hc)
      (by rw [endsWithSep_append _ _ hc]; exact hce) hds]

/-- A calendar date as read from `datetime.date.today()` at call time
(the date source is an external primitive; it is injected into each call
so nothing is cached between calls). -/
structure PyDate where
  year : Nat
  month : Nat
  day : Nat
deriving DecidableEq

/-- `YMDPathProvider` configuration. -/
structure YMDPathProvider where
  directory_path : String
  create_dir_depth : Int
  device_name_as_base_dir : Bool
deriving DecidableEq

/-- The `resource_dir` computed by `YMDPathProvider.__call__`:
`os.path.join` of the raw (unpadded) decimal year/month/day strings,
with a supplied device name joined before them
(`device_name_as_base_dir=False`) or after them
(`device_name_as_base_dir=True`). -/
def YMDPathProvider.resource_dir (p : YMDPathProvider) (today : PyDate)
    (device_name : Option String) : String :=
  match device_name with
  | none =>
    ospJoin (pyStrNat today.year) [pyStrNat today.month, pyStrNat today.day]
  | some dn =>
    if p.device_name_as_base_dir then
      ospJoin (pyStrNat today.year) [pyStrNat today.month, pyStrNat today.day, dn]
    else
      ospJoin dn [pyStrNat today.year, pyStrNat today.month, pyStrNat today.day]

/-- `YMDPathProvider.__call__`: read the date (injected per call), build
the resource_dir, invoke the filename provider (a raise propagates), and
return the `PathInfo`. -/
def YMDPathProvider.call {φ : Type} (fp : φ → Except String String × φ)
    (p : YMDPathProvider) (fs : φ) (today : PyDate)
    (device_name : Option String) : Except String PathInfo × φ :=
  let resource_dir := p.resource_dir today device_name
  match fp fs with
  | (Except.error e, fs2) => (Except.error e, fs2)
  | (Except.ok filename, fs2) =>
    (Except.ok { root := p.directory_path,
                 resource_dir := resource_dir,
                 filename := filename,
                 create_dir_depth := p.create_dir_depth }, fs2)

/-- C5 (counterexample): `os.path.join` restarts at a component that
starts with the separator, so with device name "/x" and
`device_name_as_base_dir=True` on date 2024-03-07 the resource_dir is
"/x" — not the year/month/day/device segment path the claim requires for
every supplied device name. -/
theorem ymd_resource_dir_claim_counterexample :
    YMDPathProvider.resource_dir ⟨"/tmp", 0, true⟩ ⟨2024, 3, 7⟩ (some "/x") = "/x"
    ∧ "/x" ≠ "2024" ++ "/" ++ "3" ++ "/" ++ "7" ++ "/" ++ "/x" := by
  decide

/-- C5 (amended): for every call date (year, month, day) and every device
name that is a well-formed path segment (nonempty, neither starting nor
ending with "/"): with no device name the resource_dir is
`year/month/day` (raw decimal, no zero-padding); with a device name and
`device_name_as_base_dir=False` it is `device/year/month/day`; with
`device_name_as_base_dir=True` it is `year/month/day/device`; and the
returned `PathInfo` carries exactly this resource_dir.  The date is an
input of every call (read fresh, never cached). -/
theorem ymd_resource_dir_segments (p : YMDPathProvider) (y m d : Nat) (dn : String)
    (h1 : dn ≠ "") (h2 : startsWithSep dn = false) (h3 : endsWithSep dn = false) :
    p.resource_dir ⟨y, m, d⟩ none =
      pyStrNat y ++ "/" ++ pyStrNat m ++ "/" ++ pyStrNat d
    ∧ (p.device_name_as_base_dir = false →
        p.resource_dir ⟨y, m, d⟩ (some dn) =
          dn ++ "/" ++ pyStrNat y ++ "/" ++ pyStrNat m ++ "/" ++ pyStrNat d)
    ∧ (p.device_name_as_base_dir = true →
        p.resource_dir ⟨y, m, d⟩ (some dn) =
          pyStrNat y ++ "/" ++ pyStrNat m ++ "/" ++ pyStrNat d ++ "/" ++ dn)
    ∧ ∀ (φ : Type) (fp : φ → Except String String × φ) (fs : φ) (fn : String)
        (fs2 : φ) (dno : Option String), fp fs = (Except.ok fn, fs2) →
        (YMDPathProvider.call fp p fs ⟨y, m, d⟩ dno).1 =
          Except.ok { root := p.directory_path,
                      resource_dir := p.resource_dir ⟨y, m, d⟩ dno,
                      filename := fn,
                      create_dir_depth := p.create_dir_depth } := by
  refine ⟨?_, fun hflag => ?_, fun hflag => ?_, fun φ fp fs fn fs2 dno hfp => ?_⟩
  · show ospJoin (pyStrNat y) [pyStrNat m, pyStrNat d] = _
    exact ospJoin_three _ _ _ (pyStrNat_data_ne_nil y)
      (endsWithSep_eq_false _ (pyStrNat_no_sep y))
      (pyStrNat_data_ne_nil m) (startsWithSep_eq_false _ (pyStrNat_no_sep m))
      (endsWithSep_eq_false _ (pyStrNat_no_sep m))
      (startsWithSep_eq_false _ (pyStrNat_no_sep d))
  · simp only [YMDPathProvider.resource_dir, hflag, if_false, Bool.false_eq_true]
    exact ospJoin_four _ _ _ _ (data_ne_nil_of_ne_empty dn h1) h3
      (pyStrNat_data_ne_nil y) (startsWithSep_eq_false _ (pyStrNat_no_sep y))
      (endsWithSep_eq_false _ (pyStrNat_no_sep y))
      (pyStrNat_data_ne_nil m) (startsWithSep_eq_false _ (pyStrNat_no_sep m))
      (endsWithSep_eq_false _ (pyStrNat_no_sep m))
      (startsWithSep_eq_false _ (pyStrNat_no_sep d))
  · simp only [YMDPathProvider.resource_dir, hflag, if_true]
    exact ospJoin_four _ _ _ _ (pyStrNat_data_ne_nil y)
      (endsWithSep_eq_false _ (pyStrNat_no_sep y))
      (pyStrNat_data_ne_nil m) (startsWithSep_eq_false _ (pyStrNat_no_sep m))
      (endsWithSep_eq_false _ (pyStrNat_no_sep m))
      (pyStrNat_data_ne_nil d) (startsWithSep_eq_false _ (pyStrNat_no_sep d))
      (endsWithSep_eq_false _ (pyStrNat_no_sep d)) h2
  · unfold YMDPathProvider.call
    rw [hfp]

/-- Witness for C5 (amended) on 2024-03-07 with device name "det". -/
theorem ymd_resource_dir_segments_witness :
    YMDPathProvider.resource_dir ⟨"/tmp", 0, false⟩ ⟨2024, 3, 7⟩ none = "2024/3/7"
    ∧ YMDPathProvider.resource_dir ⟨"/tmp", 0, false⟩ ⟨2024, 3, 7⟩ (some "det") =
        "det/2024/3/7"
    ∧ YMDPathProvider.resource_dir ⟨"/tmp", 0, true⟩ ⟨2024, 3, 7⟩ (some "det") =
        "2024/3/7/det" := by
  have hf := ymd_resource_dir_segments ⟨"/tmp", 0, false⟩ 2024 3 7 "det"
    (by decide) (by decide) (by decide)
  have ht := ymd_resource_dir_segments ⟨"/tmp", 0, true⟩ 2024 3 7 "det"
    (by decide) (by decide) (by decide)
  refine ⟨?_, ?_, ?_⟩
  · rw [hf.1]; decide
  · rw [hf.2.1 rfl]; decide
  · rw [ht.2.2.1 rfl]; decide

/-- `StaticPathProvider` configuration: directory path, resource dir and
create depth, all fixed at construction (`__call__` never assigns any
field). -/
structure StaticPathProvider where
  directory_path : String
  resource_dir : String
  create_dir_depth : Int
deriving DecidableEq

/-- `StaticPathProvider.__call__`: invoke the held filename provider
(modelled as a state-passing function `fp` over an arbitrary state type
`φ`; a raise propagates, with whatever state `fp` left behind), then
return a `PathInfo` whose root/resource_dir/create_dir_depth are the
configured values.  The `device_name` argument is accepted and never
read. -/
def StaticPathProvider.call {φ : Type} (fp : φ → Except String String × φ)
    (p : StaticPathProvider) (fs : φ) (device_name : Option String) :
    Except String PathInfo × φ :=
  match fp fs with
  | (Except.error e, fs2) => (Except.error e, fs2)
  | (Except.ok filename, fs2) =>
    (Except.ok { root := p.directory_path,
                 resource_dir := p.resource_dir,
                 filename := filename,
                 create_dir_depth := p.create_dir_depth }, fs2)

/-- C8: every `StaticPathProvider` call returns the configured
root/resource_dir/create_dir_depth whatever the device-name hint (the
call result does not depend on the hint at all), and the filename is the
one freshly produced by the held filename provider at the current
state. -/
theorem staticPathProvider_fields_static {φ : Type}
    (fp : φ → Except String String × φ) (p : StaticPathProvider) (fs : φ)
    (dn dn' : Option String) :
    StaticPathProvider.call fp p fs dn = StaticPathProvider.call fp p fs dn'
    ∧ ∀ pi fs2, StaticPathProvider.call fp p fs dn = (Except.ok pi, fs2) →
        pi.root = p.directory_path ∧ pi.resource_dir = p.resource_dir ∧
        pi.create_dir_depth = p.create_dir_depth ∧
        (fp fs).1 = Except.ok pi.filename ∧ fs2 = (fp fs).2 := by
  constructor
  · rfl
  · intro pi fs2 h
    unfold StaticPathProvider.call at h
    cases hfp : fp fs with
    | mk r fs3 =>
      rw [hfp] at h
      cases r with
      | error e => simp at h
      | ok fn =>
        rw [Prod.mk.injEq] at h
        obtain ⟨h1, h2⟩ := h
        injection h1 with h1
        subst h1
        subst h2
        exact ⟨rfl, rfl, rfl, rfl, rfl⟩

/-- Witness for C8 with a static filename provider. -/
theorem staticPathProvider_fields_static_witness :
    (StaticPathProvider.call StaticFilenameProvider.call ⟨"/tmp", ".", 0⟩
        ⟨"data"⟩ (some "det") =
      StaticPathProvider.call StaticFilenameProvider.call ⟨"/tmp", ".", 0⟩
        ⟨"data"⟩ none)
    ∧ ((⟨"/tmp", ".", "data", 0⟩ : PathInfo).root = "/tmp"
        ∧ (⟨"/tmp", ".", "data", 0⟩ : PathInfo).resource_dir = "."
        ∧ (⟨"/tmp", ".", "data", 0⟩ : PathInfo).create_dir_depth = 0
        ∧ (StaticFilenameProvider.call ⟨"data"⟩).1 =
            Except.ok (⟨"/tmp", ".", "data", 0⟩ : PathInfo).filename
        ∧ (⟨"data"⟩ : StaticFilenameProvider) =
            (StaticFilenameProvider.call ⟨"data"⟩).2) := by
  have h := staticPathProvider_fields_static StaticFilenameProvider.call
    ⟨"/tmp", ".", 0⟩ ⟨"data"⟩ (some "det") none
  exact ⟨h.1, h.2 ⟨"/tmp", ".", "data", 0⟩ ⟨"data"⟩ (by decide)⟩

/-- `AutoIncrementingPathProvider` state: the constructor arguments plus
the mutable counter `_current_value` (initialised to `starting_value`)
and call tally `_inc_counter` (initialised to 0). -/
structure AutoIncrementingPathProvider where
  directory_path : String
  create_dir_depth : Int
  base_name : Option String
  starting_value : Int
  current_value : Int
  num_calls_per_inc : Nat
  inc_counter : Nat
  max_digits : Nat
  increment : Int
  inc_delimeter : String
deriving DecidableEq

/-- `AutoIncrementingPathProvider.__init__`. -/
def AutoIncrementingPathProvider.init (directory_path : String)
    (create_dir_depth : Int) (max_digits : Nat) (starting_value : Int)
    (num_calls_per_inc : Nat) (increment : Int) (inc_delimeter : String)
    (base_name : Option String) : AutoIncrementingPathProvider :=
  { directory_path := directory_path, create_dir_depth := create_dir_depth,
    base_name := base_name, starting_value := starting_value,
    current_value := starting_value, num_calls_per_inc := num_calls_per_inc,
    inc_counter := 0, max_digits := max_digits, increment := increment,
    inc_delimeter := inc_delimeter }

/-- The `resource_dir` string computed inside
`AutoIncrementingPathProvider.__call__`: the zero-padded counter alone,
prefixed (with the delimiter) by the configured `base_name` when one is
set, else by the per-call `device_name` hint when supplied. -/
def AutoIncrementingPathProvider.resource_dir (p : AutoIncrementingPathProvider)
    (device_name : Option String) : String :=
  let padded_counter := pyRjust (pyStrInt p.current_value) p.max_digits '0'
  match p.base_name, device_name with
  | some bn, _ => bn ++ p.inc_delimeter ++ padded_counter
  | none, some dn => dn ++ p.inc_delimeter ++ padded_counter
  | none, none => padded_counter

/-- The tally/counter update at the end of
`AutoIncrementingPathProvider.__call__`: bump `_inc_counter`; when it
reaches `_num_calls_per_inc`, reset it to 0 and advance `_current_value`
by a literal `+= 1` (the stored `_increment` is never read there). -/
def AutoIncrementingPathProvider.advance (p : AutoIncrementingPathProvider) :
    AutoIncrementingPathProvider :=
  if p.inc_counter + 1 = p.num_calls_per_inc then
    { p with inc_counter := 0, current_value := p.current_value + 1 }
  else
    { p with inc_counter := p.inc_counter + 1 }

/-- `AutoIncrementingPathProvider.__call__`: first invoke the held
filename provider (its raise propagates before any counter mutation),
then build the `PathInfo` from the pre-update counter and update the
tally/counter. -/
def AutoIncrementingPathProvider.call {φ : Type}
    (fp : φ → Except String String × φ) (p : AutoIncrementingPathProvider)
    (fs : φ) (device_name : Option String) :
    Except String PathInfo × AutoIncrementingPathProvider × φ :=
  match fp fs with
  | (Except.error e, fs2) => (Except.error e, p, fs2)
  | (Except.ok filename, fs2) =>
    (Except.ok { root := p.directory_path,
                 resource_dir := p.resource_dir device_name,
                 filename := filename,
                 create_dir_depth := p.create_dir_depth },
      p.advance, fs2)

/-- Run a sequence of `AutoIncrementingPathProvider` calls, threading the
provider and filename-provider states, collecting each call's result. -/
def AutoIncrementingPathProvider.runCalls {φ : Type}
    (fp : φ → Except String String × φ) :
    AutoIncrementingPathProvider → φ → List (Option String) →
      List (Except String PathInfo)
  | _, _, [] => []
  | p, fs, dn :: rest =>
    match AutoIncrementingPathProvider.call fp p fs dn with
    | (r, p2, fs2) => r :: AutoIncrementingPathProvider.runCalls fp p2 fs2 rest

/-- C1 (failing input): with `num_calls_per_inc=1`, `increment=2`,
`starting_value=0`, a single call leaves the directory counter at 1, not
at `starting_value + increment = 2`: the code advances the counter with a
literal `+= 1` and never reads the configured `_increment`. -/
theorem aipp_increment_config_ignored :
    ((AutoIncrementingPathProvider.call StaticFilenameProvider.call
        (AutoIncrementingPathProvider.init "/tmp" 0 5 0 1 2 "_" none)
        ⟨"f"⟩ none).2.1.current_value = 1)
    ∧ (AutoIncrementingPathProvider.init "/tmp" 0 5 0 1 2 "_" none).increment = 2
    ∧ (1 : Int) ≠ 0 + 1 * 2 := by
  decide

/-- C4: `AutoIncrementingPathProvider(num_calls_per_inc=2,
starting_value=0)` (all else at the Python defaults), called 4 times with
`device_name="det"`, yields resource_dirs
`det_00000, det_00000, det_00001, det_00001`. -/
theorem aipp_two_calls_per_inc_sequence :
    (AutoIncrementingPathProvider.runCalls StaticFilenameProvider.call
        (AutoIncrementingPathProvider.init "/tmp" 0 5 0 2 1 "_" none) ⟨"f"⟩
        [some "det", some "det", some "det", some "det"]).map
      (fun r => match r with
        | Except.ok pi => pi.resource_dir
        | Except.error e => e) =
      ["det_00000", "det_00000", "det_00001", "det_00001"] := by
  decide

/-- C6: a configured `base_name` always wins over the per-call device-name
hint; without one, a supplied device name prefixes the padded counter;
with neither, the resource_dir is the padded counter alone. -/
theorem aipp_base_name_precedence (p : AutoIncrementingPathProvider)
    (dn : Option String) :
    (∀ bn, p.base_name = some bn →
      p.resource_dir dn = bn ++ p.inc_delimeter ++
        pyRjust (pyStrInt p.current_value) p.max_digits '0')
    ∧ (p.base_name = none → ∀ d, dn = some d →
      p.resource_dir dn = d ++ p.inc_delimeter ++
        pyRjust (pyStrInt p.current_value) p.max_digits '0')
    ∧ (p.base_name = none → dn = none →
      p.resource_dir dn = pyRjust (pyStrInt p.current_value) p.max_digits '0') := by
  refine ⟨fun bn hb => ?_, fun hb d hd => ?_, fun hb hd => ?_⟩
  · simp [AutoIncrementingPathProvider.resource_dir, hb]
  · simp [AutoIncrementingPathProvider.resource_dir, hb, hd]
  · simp [AutoIncrementingPathProvider.resource_dir, hb, hd]

/-- Witness for C6 at `base_name="run"`, `device_name="det"`,
counter 3. -/
theorem aipp_base_name_precedence_witness :
    AutoIncrementingPathProvider.resource_dir
        (AutoIncrementingPathProvider.init "/tmp" 0 5 3 1 1 "_" (some "run"))
        (some "det") = "run_00003"
    ∧ AutoIncrementingPathProvider.resource_dir
        (AutoIncrementingPathProvider.init "/tmp" 0 5 3 1 1 "_" none)
        (some "det") = "det_00003"
    ∧ AutoIncrementingPathProvider.resource_dir
        (AutoIncrementingPathProvider.init "/tmp" 0 5 3 1 1 "_" none)
        none = "00003" := by
  refine ⟨?_, ?_, ?_⟩
  · rw [(aipp_base_name_precedence
      (AutoIncrementingPathProvider.init "/tmp" 0 5 3 1 1 "_" (some "run"))
      (some "det")).1 "run" (by decide)]
    decide
  · rw [(aipp_base_name_precedence
      (AutoIncrementingPathProvider.init "/tmp" 0 5 3 1 1 "_" none)
      (some "det")).2.1 (by decide) "det" rfl]
    decide
  · rw [(aipp_base_name_precedence
      (AutoIncrementingPathProvider.init "/tmp" 0 5 3 1 1 "_" none)
      none).2.2 (by decide) rfl]
    decide

/-- C9: the directory counter of `AutoIncrementingPathProvider` has no
digit-overflow guard: whenever the filename provider succeeds the call
returns `ok` for every counter value, and when the counter's decimal
representation exceeds `max_digits` the padding is a no-op, so the
resource_dir embeds the full unpadded counter string. -/
theorem aipp_no_overflow_guard {φ : Type}
    (fp : φ → Except String String × φ) (p : AutoIncrementingPathProvider)
    (fs : φ) (dn : Option String) (fn : String) (fs2 : φ)
    (h : fp fs = (Except.ok fn, fs2)) :
    (AutoIncrementingPathProvider.call fp p fs dn).1 =
      Except.ok { root := p.directory_path,
                  resource_dir := p.resource_dir dn,
                  filename := fn,
                  create_dir_depth := p.create_dir_depth }
    ∧ (p.max_digits < (pyStrInt p.current_value).length →
        pyRjust (pyStrInt p.current_value) p.max_digits '0' =
          pyStrInt p.current_value
        ∧ p.resource_dir dn =
            (match p.base_name, dn with
             | some bn, _ => bn ++ p.inc_delimeter ++ pyStrInt p.current_value
             | none, some d => d ++ p.inc_delimeter ++ pyStrInt p.current_value
             | none, none => pyStrInt p.current_value)) := by
  constructor
  · unfold AutoIncrementingPathProvider.call
    rw [h]
  · intro hlen
    have hpad : pyRjust (pyStrInt p.current_value) p.max_digits '0' =
        pyStrInt p.current_value := by
      unfold pyRjust
      rw [if_pos (by omega)]
    refine ⟨hpad, ?_⟩
    rcases hb : p.base_name with _ | bn
    · rcases hd : dn with _ | d
      · simp only [AutoIncrementingPathProvider.resource_dir, hb, hd]
        exact hpad
      · simp only [AutoIncrementingPathProvider.resource_dir, hb, hd]
        rw [hpad]
    · simp only [AutoIncrementingPathProvider.resource_dir, hb]
      rw [hpad]

/-- Witness for C9: counter 123456 with `max_digits=5` still succeeds and
embeds the six-digit counter. -/
theorem aipp_no_overflow_guard_witness :
    (AutoIncrementingPathProvider.call StaticFilenameProvider.call
        { AutoIncrementingPathProvider.init "/tmp" 0 5 0 1 1 "_" none with
          current_value := 123456 } ⟨"f"⟩ (some "det")).1 =
      Except.ok { root := "/tmp",
                  resource_dir := "det_123456",
                  filename := "f",
                  create_dir_depth := 0 }
    ∧ pyRjust (pyStrInt 123456) 5 '0' = pyStrInt 123456 := by
  have h := aipp_no_overflow_guard StaticFilenameProvider.call
    { AutoIncrementingPathProvider.init "/tmp" 0 5 0 1 1 "_" none with
      current_value := 123456 } ⟨"f"⟩ (some "det") "f" ⟨"f"⟩ (by decide)
  obtain ⟨h1, h2⟩ := h
  refine ⟨?_, (h2 (by decide)).1⟩
  rw [h1]
  decide

/-- C10: `AutoIncrementingPathProvider.__call__` invokes the filename
provider before touching the counter or the tally, so a filename-provider
failure propagates with the path provider's state unchanged. -/
theorem aipp_filename_failure_preserves_counters {φ : Type}
    (fp : φ → Except String String × φ) (p : AutoIncrementingPathProvider)
    (fs : φ) (dn : Option String) (e : String) (fs2 : φ)
    (h : fp fs = (Except.error e, fs2)) :
    AutoIncrementingPathProvider.call fp p fs dn = (Except.error e, p, fs2) := by
  unfold AutoIncrementingPathProvider.call
  rw [h]

/-- Witness for C10: an overflowing `AutoIncrementFilenameProvider` as the
filename provider makes the path-provider call fail and leaves the path
provider exactly as it was. -/
theorem aipp_filename_failure_preserves_counters_witness :
    AutoIncrementingPathProvider.call AutoIncrementFilenameProvider.call
        (AutoIncrementingPathProvider.init "/tmp" 0 5 0 1 1 "_" none)
        (AutoIncrementFilenameProvider.init "x" 3 1000 1 "_") (some "det") =
      (Except.error (counterOverflowMsg 3),
        AutoIncrementingPathProvider.init "/tmp" 0 5 0 1 1 "_" none,
        AutoIncrementFilenameProvider.init "x" 3 1000 1 "_") :=
  aipp_filename_failure_preserves_counters AutoIncrementFilenameProvider.call
    (AutoIncrementingPathProvider.init "/tmp" 0 5 0 1 1 "_" none)
    (AutoIncrementFilenameProvider.init "x" 3 1000 1 "_") (some "det")
    (counterOverflowMsg 3) (AutoIncrementFilenameProvider.init "x" 3 1000 1 "_")
    (by decide)

/-- C7: once a call to `AutoIncrementFilenameProvider` fails with the
counter-overflow error, the failing call leaves the counter state
unchanged, so every subsequent call to the same instance fails with the
same error; there is no reset or wraparound. -/
theorem autoIncrementFilename_overflow_persists (p : AutoIncrementFilenameProvider)
    (m : String) (h : (p.call).1 = Except.error m) :
    (p.call).2 = p ∧
      ∀ k : Nat, (AutoIncrementFilenameProvider.call (p.iterate k)).1 =
        Except.error m := by
  by_cases hc : p.max_digits < (pyStrInt p.current_value).length
  · have hcall := AutoIncrementFilenameProvider.call_overflow p hc
    rw [hcall] at h
    have hm : m = counterOverflowMsg p.max_digits := by
      have h' := h
      simp only at h'
      exact (Except.error.injEq _ _).mp h'.symm
    have hiter : ∀ k, p.iterate k = p := by
      intro k
      induction k with
      | zero => rfl
      | succ k ih => rw [AutoIncrementFilenameProvider.iterate, ih, hcall]
    refine ⟨by rw [hcall], fun k => ?_⟩
    rw [hiter k, hcall, hm]
  · rw [AutoIncrementFilenameProvider.call_ok p (by omega)] at h
    exact absurd h (by simp)

/-- Witness for C7: an instance configured with `starting_value=1000` and
`max_digits=3` fails immediately, its state is unchanged, and the third
subsequent call still fails with the same error. -/
theorem autoIncrementFilename_overflow_persists_witness :
    ((AutoIncrementFilenameProvider.init "x" 3 1000 1 "_").call).2 =
        AutoIncrementFilenameProvider.init "x" 3 1000 1 "_" ∧
      (AutoIncrementFilenameProvider.call
          ((AutoIncrementFilenameProvider.init "x" 3 1000 1 "_").iterate 3)).1 =
        Except.error (counterOverflowMsg 3) := by
  have h := autoIncrementFilename_overflow_persists
    (AutoIncrementFilenameProvider.init "x" 3 1000 1 "_")
    (counterOverflowMsg 3) (by decide)
  exact ⟨h.1, h.2 3⟩
